import Mathlib

/-!
Shallow embedding of two components of the `garage` repository:

* `src/garage/exploration_strategies/ou_strategy.py` — the Ornstein-Uhlenbeck
  exploration strategy (`OUStrategy`).
* `src/garage/contrib/torch/policies/gaussian_mlp_policy.py` — the diagonal
  Gaussian MLP policy (`GaussianMLPPolicy`).

Numeric values (numpy / torch float arrays) are modelled as `List ℚ`;
randomness (`numpy.random.randn`, `Normal.sample`) is modelled by passing the
per-dimension standard-normal draws explicitly as a function `ℕ → ℚ`.
Python exceptions are modelled with `Except`.
-/

namespace Garage

/-! ## Spaces and environment specs -/

/-- Kind tag of a `gym` space: `isinstance(x, gym.spaces.Box)` is modelled as
`kind = SpaceKind.box`. -/
inductive SpaceKind
  | box
  | discrete
  | other
deriving DecidableEq

/-- A `gym` space as consumed by `OUStrategy`: a kind tag, a shape, and the
`low` / `high` bound vectors (meaningful for a `Box`). -/
structure Space where
  kind : SpaceKind
  shape : List Nat
  low : List ℚ
  high : List ℚ
deriving DecidableEq

/-- Modelled from the spec: `garage.envs.util.flat_dim` is imported by
`ou_strategy.py` but its source is not part of this excerpt.  Per the spec's
glossary, the flat dimension is "the length of an observation or action vector
after flattening", i.e. for a `Box` the product of its shape axes. -/
def flat_dim (s : Space) : Nat := s.shape.foldl (· * ·) 1

/-! ## OUStrategy (src/garage/exploration_strategies/ou_strategy.py) -/

/-- The error raised by the constructor's space validation.  The source uses
`assert` statements; the spec names the resulting failure `InvalidSpaceError`. -/
inductive OUError
  | invalidSpace
deriving DecidableEq

/-- The fields `OUStrategy.__init__` stores on `self`. -/
structure OUStrategy where
  mu : ℚ
  theta : ℚ
  sigma : ℚ
  action_space : Space
  state : List ℚ
deriving DecidableEq

namespace OUStrategy

/-- Constructor `OUStrategy.__init__(env_spec, mu, theta, sigma)`:
asserts `isinstance(env_spec.action_space, gym.spaces.Box)` and
`len(env_spec.action_space.shape) == 1`, stores the scalar parameters and the
action space, then sets `state = np.ones(flat_dim(action_space)) * mu`
(and `reset()` re-establishes the same value). -/
def construct (action_space : Space) (mu theta sigma : ℚ) :
    Except OUError OUStrategy :=
  if action_space.kind = SpaceKind.box ∧ action_space.shape.length = 1 then
    Except.ok
      { mu := mu
        theta := theta
        sigma := sigma
        action_space := action_space
        state := List.replicate (flat_dim action_space) mu }
  else
    Except.error OUError.invalidSpace

/-- Method `OUStrategy.reset()`: `self.state = np.ones(flat_dim(self.action_space)) * self.mu`. -/
def reset (s : OUStrategy) : OUStrategy :=
  { s with state := List.replicate (flat_dim s.action_space) s.mu }

/-- Method `OUStrategy.evolve_state()`:
`x = self.state; dx = self.theta * (self.mu - x) + self.sigma * nr.randn(len(x))`;
`self.state = x + dx; return self.state`.  The `len(x)` standard-normal draws
are supplied by `noise`; the numpy arithmetic is elementwise.  Returns the
updated strategy together with the returned array. -/
def evolve_state (s : OUStrategy) (noise : Nat → ℚ) : OUStrategy × List ℚ :=
  let x := s.state
  let newState := (List.range x.length).map
    (fun i => x.getD i 0 + (s.theta * (s.mu - x.getD i 0) + s.sigma * noise i))
  ({ s with state := newState }, newState)

/-- Elementwise `np.clip(a, lo, hi)`: `min (max aᵢ loᵢ) hiᵢ`. -/
def npClip (a lo hi : List ℚ) : List ℚ :=
  List.zipWith min (List.zipWith max a lo) hi

/-- Method `OUStrategy.get_action(t, observation, policy)`:
`action, _ = policy.get_action(observation)` (the base policy returns a pair
and the auxiliary component is discarded), `ou_state = self.evolve_state()`,
`return np.clip(action + ou_state, low, high)`.  The timestep `t` is a
parameter of the signature.  Returns the updated strategy and the clipped
action. -/
def get_action (s : OUStrategy) (t : Nat) (observation : List ℚ)
    (policy : List ℚ → List ℚ × List ℚ) (noise : Nat → ℚ) :
    OUStrategy × List ℚ :=
  let action := (policy observation).1
  let res := s.evolve_state noise
  (res.1,
   npClip (List.zipWith (· + ·) action res.2) s.action_space.low
     s.action_space.high)

/-- The data-model invariant: the state vector's length is the action space's
flat dimension. -/
def stateLenInv (s : OUStrategy) : Prop :=
  s.state.length = flat_dim s.action_space

end OUStrategy

/-! ## GaussianMLPPolicy (src/garage/contrib/torch/policies/gaussian_mlp_policy.py)

The transcendental functions `math.log`, `Tensor.exp` are abstracted as
function parameters `qlog`, `qexp` over `ℚ`; the MLP collaborator
(`garage.contrib.torch.core.mlp.MLP`, external to this excerpt) is abstracted
as a function `List ℚ → List ℚ`. -/

/-- Python exceptions raised by the policy code. -/
inductive PyError
  | notImplementedError
  | typeError
deriving DecidableEq

/-- The `env_spec` collaborator: exposes `observation_space.flat_dim` and
`action_space.flat_dim`. -/
structure EnvSpec where
  obs_flat_dim : Nat
  action_flat_dim : Nat
deriving DecidableEq

/-- The fields a fully initialized `GaussianMLPPolicy` would carry:
the mean MLP `self.mu`, the `self.log_std` parameter vector, and the
`requires_grad` flag of that `nn.Parameter`. -/
structure GaussianMLPPolicy where
  mu : List ℚ → List ℚ
  log_std : List ℚ
  log_std_requires_grad : Bool

namespace GaussianMLPPolicy

/-- Constructor `GaussianMLPPolicy.__init__`: first the guard
`if adaptive_std: raise NotImplementedError` (the spec names this failure
`NotSupportedError`), then the source calls `nn.Module.__init__()` — without
passing `self` — which in Python raises
`TypeError: __init__() missing 1 required positional argument: 'self'`,
so the lines building `self.mu` and `self.log_std` are never reached and
construction never succeeds. -/
def construct (env_spec : EnvSpec) (learn_std : Bool) (init_std : ℚ)
    (adaptive_std : Bool) : Except PyError GaussianMLPPolicy :=
  if adaptive_std then
    Except.error PyError.notImplementedError
  else
    Except.error PyError.typeError

/-- The remainder of the initializer body below the faulty
`nn.Module.__init__()` call, as it is written in the source:
`self.log_std = nn.Parameter(math.log(init_std) * torch.ones(action_dim, dtype=torch.float32))`.
`nn.Parameter` is constructed without a `requires_grad` argument, so it
defaults to `requires_grad=True`; the `learn_std` argument is never read in
the initializer body.  Returns the `log_std` vector together with its
`requires_grad` flag. -/
def initLogStd (action_dim : Nat) (learn_std : Bool) (qlog : ℚ → ℚ)
    (init_std : ℚ) : List ℚ × Bool :=
  (List.replicate action_dim (qlog init_std), true)

/-- Method `GaussianMLPPolicy.policy(obs)`: `Normal(self.mu(obs), self.log_std.exp())`,
a diagonal Gaussian represented by its per-dimension (mean, std) vectors. -/
def policyDist (p : GaussianMLPPolicy) (qexp : ℚ → ℚ) (obs : List ℚ) :
    List ℚ × List ℚ :=
  (p.mu obs, p.log_std.map qexp)

/-- Method `GaussianMLPPolicy.logpdf(obs, action)`:
`self.policy(obs).log_prob(action).sum(dim=1)` — the sum over action
dimensions of the per-dimension Normal log-density
`-(aᵢ-mᵢ)²/(2 sᵢ²) - log sᵢ - log √(2π)` (with `log √(2π)` passed as the
constant `logSqrtTwoPi`). -/
def logpdf (p : GaussianMLPPolicy) (qexp qlog : ℚ → ℚ) (logSqrtTwoPi : ℚ)
    (obs action : List ℚ) : ℚ :=
  let d := p.policyDist qexp obs
  ((List.range action.length).map (fun i =>
      -((action.getD i 0 - d.1.getD i 0) ^ 2) / (2 * (d.2.getD i 0) ^ 2)
        - qlog (d.2.getD i 0) - logSqrtTwoPi)).sum

/-- Method `GaussianMLPPolicy.sample(obs)`:
`actions = self.policy(obs).sample()` draws one vector from the distribution
(`meanᵢ + stdᵢ * nᵢ` for standard-normal draws `nᵢ`); the next line is
`logpdf = self.logpdf(actions)`, which passes the drawn action as the `obs`
parameter and supplies no `action` argument — `logpdf` takes `(self, obs,
action)`, so Python raises `TypeError` and `sample` never returns a pair. -/
def sample (p : GaussianMLPPolicy) (qexp : ℚ → ℚ) (obs : List ℚ)
    (n : Nat → ℚ) : Except PyError (List ℚ × ℚ) :=
  let d := p.policyDist qexp obs
  let _actions := (List.range d.1.length).map
    (fun i => d.1.getD i 0 + d.2.getD i 0 * n i)
  Except.error PyError.typeError

/-- Method `GaussianMLPPolicy.forward(obs)`: `return self.sample(obs)`. -/
def forward (p : GaussianMLPPolicy) (qexp : ℚ → ℚ) (obs : List ℚ)
    (n : Nat → ℚ) : Except PyError (List ℚ × ℚ) :=
  p.sample qexp obs n

end GaussianMLPPolicy

/-! ## Sample concrete values used to instantiate the theorems -/

/-- A sample OU strategy over `Box(low=-1, high=1, shape=(1,))` with the
source's default parameters `mu=0, theta=0.15, sigma=0.3`. -/
def ouW : OUStrategy := ⟨0, 15/100, 3/10, ⟨SpaceKind.box, [1], [-1], [1]⟩, [0]⟩

/-- A sample base policy whose action is `[0.9]`, with empty auxiliary data. -/
def policyW : List ℚ → List ℚ × List ℚ := fun _ => ([9/10], [])

/-- A sample constant assignment of standard-normal draws. -/
def noiseW : Nat → ℚ := fun _ => 5

/-! ## Theorems about the claims -/

/-- Helper: an element of `npClip a lo hi` lies between the corresponding
`lo` and `hi` entries whenever those two are ordered. -/
theorem npClip_bounds (a lo hi : List ℚ) (i : Nat)
    (hb : lo.getD i 0 ≤ hi.getD i 0)
    (h : i < (OUStrategy.npClip a lo hi).length) :
    lo.getD i 0 ≤ (OUStrategy.npClip a lo hi).getD i 0 ∧
    (OUStrategy.npClip a lo hi).getD i 0 ≤ hi.getD i 0 := by
  have hlen : i < min (min a.length lo.length) hi.length := by
    simpa [OUStrategy.npClip, List.length_zipWith] using h
  obtain ⟨h1, hihi⟩ := lt_min_iff.mp hlen
  obtain ⟨hia, hilo⟩ := lt_min_iff.mp h1
  rw [List.getD_eq_getElem _ _ h]
  rw [List.getD_eq_getElem _ _ hilo] at hb ⊢
  rw [List.getD_eq_getElem _ _ hihi] at hb ⊢
  simp only [OUStrategy.npClip, List.getElem_zipWith]
  exact ⟨le_min (le_max_right _ _) hb, min_le_right _ _⟩

/-- C3: every component of the action returned by `OUStrategy.get_action` lies
in the closed interval between the stored action-space bounds at that
component (assuming the bound pair is ordered, as it is for any valid `Box`),
for any base-policy action and any value the noise state evolves to. -/
theorem get_action_within_bounds (s : OUStrategy) (t : Nat)
    (observation : List ℚ) (policy : List ℚ → List ℚ × List ℚ)
    (noise : Nat → ℚ) (i : Nat)
    (hb : s.action_space.low.getD i 0 ≤ s.action_space.high.getD i 0)
    (hi : i < ((s.get_action t observation policy noise).2).length) :
    s.action_space.low.getD i 0
        ≤ (s.get_action t observation policy noise).2.getD i 0 ∧
    (s.get_action t observation policy noise).2.getD i 0
        ≤ s.action_space.high.getD i 0 := by
  have heq : (s.get_action t observation policy noise).2
      = OUStrategy.npClip
          (List.zipWith (· + ·) (policy observation).1 (s.evolve_state noise).2)
          s.action_space.low s.action_space.high := rfl
  rw [heq] at hi ⊢
  exact npClip_bounds _ _ _ i hb hi

/-- Witness for C3: in `ouW` (bounds `[-1, 1]`), base action `0.9` plus noise
state `1.5` is clipped back into the interval. -/
theorem get_action_within_bounds_witness :
    ouW.action_space.low.getD 0 0
        ≤ (ouW.get_action 0 [0] policyW noiseW).2.getD 0 0 ∧
    (ouW.get_action 0 [0] policyW noiseW).2.getD 0 0
        ≤ ouW.action_space.high.getD 0 0 :=
  get_action_within_bounds ouW 0 [0] policyW noiseW 0 (by decide) (by decide)

/-- C4: one call to `OUStrategy.evolve_state` returns the new state, preserves
the state's length, sets component `i` to `xᵢ + theta*(mu - xᵢ) + sigma*Nᵢ`
where `x` is the prior state and `N` the standard-normal draws, and for
`theta = 1, sigma = 0` the new state is exactly `mu` in every dimension. -/
theorem evolve_state_formula (s : OUStrategy) (noise : Nat → ℚ) :
    ((s.evolve_state noise).2 = (s.evolve_state noise).1.state) ∧
    ((s.evolve_state noise).1.state.length = s.state.length) ∧
    (∀ i, i < s.state.length →
      (s.evolve_state noise).1.state.getD i 0
        = s.state.getD i 0
            + (s.theta * (s.mu - s.state.getD i 0) + s.sigma * noise i)) ∧
    (s.theta = 1 → s.sigma = 0 →
      (s.evolve_state noise).1.state = List.replicate s.state.length s.mu) := by
  refine ⟨rfl, by simp [OUStrategy.evolve_state], ?_, ?_⟩
  · intro i hi
    show ((List.range s.state.length).map _).getD i 0 = _
    rw [List.getD_eq_getElem _ _ (by simpa using hi)]
    simp
  · intro ht hs
    show (List.range s.state.length).map _ = _
    rw [ht, hs]
    rw [show (fun i => s.state.getD i 0
          + (1 * (s.mu - s.state.getD i 0) + 0 * noise i)) = fun _ => s.mu
        from funext fun i => by ring]
    simp [List.map_const']

/-- Witness for C4: from state `[5, -3]` with `mu = 2, theta = 1, sigma = 0`,
one evolution reaches `mu` in both dimensions. -/
theorem evolve_state_formula_witness :
    (OUStrategy.evolve_state
        ⟨2, 1, 0, ⟨SpaceKind.box, [2], [-1, -1], [1, 1]⟩, [5, -3]⟩
        (fun _ => 7)).1.state
      = List.replicate 2 2 :=
  (evolve_state_formula
      ⟨2, 1, 0, ⟨SpaceKind.box, [2], [-1, -1], [1, 1]⟩, [5, -3]⟩
      (fun _ => 7)).2.2.2 rfl rfl

/-- C5: `OUStrategy.construct` succeeds exactly when the action space is a
rank-1 `Box` (the model's continuous bounded space); otherwise it fails with
`InvalidSpaceError`; and on success the state is `mu` broadcast over the flat
dimension. -/
theorem construct_validates_space (sp : Space) (mu theta sigma : ℚ) :
    ((∃ s, OUStrategy.construct sp mu theta sigma = Except.ok s) ↔
        sp.kind = SpaceKind.box ∧ sp.shape.length = 1) ∧
    (¬(sp.kind = SpaceKind.box ∧ sp.shape.length = 1) →
        OUStrategy.construct sp mu theta sigma
          = Except.error OUError.invalidSpace) ∧
    (∀ s, OUStrategy.construct sp mu theta sigma = Except.ok s →
        s.state = List.replicate (flat_dim sp) mu) := by
  unfold OUStrategy.construct
  by_cases h : sp.kind = SpaceKind.box ∧ sp.shape.length = 1
  · rw [if_pos h]
    refine ⟨⟨fun _ => h, fun _ => ⟨_, rfl⟩⟩, fun hn => absurd h hn, ?_⟩
    intro s hs
    cases hs
    rfl
  · rw [if_neg h]
    refine ⟨⟨fun ⟨s, hs⟩ => absurd (Except.noConfusion hs) id,
        fun hh => absurd hh h⟩, fun _ => rfl, ?_⟩
    intro s hs
    exact absurd (Except.noConfusion hs) id

/-- Witness for C5: a discrete space is rejected with `InvalidSpaceError`, and
over a rank-1 `Box` of flat dimension 2 the constructed state is `mu = 0`
broadcast. -/
theorem construct_validates_space_witness :
    (OUStrategy.construct ⟨SpaceKind.discrete, [1], [], []⟩ 0 (15/100) (3/10)
        = Except.error OUError.invalidSpace) ∧
    (⟨0, 15/100, 3/10, ⟨SpaceKind.box, [2], [-1, -1], [1, 1]⟩,
        List.replicate 2 0⟩ : OUStrategy).state = List.replicate 2 (0 : ℚ) :=
  ⟨(construct_validates_space ⟨SpaceKind.discrete, [1], [], []⟩ 0 (15/100)
      (3/10)).2.1 (by decide),
   (construct_validates_space ⟨SpaceKind.box, [2], [-1, -1], [1, 1]⟩ 0 (15/100)
      (3/10)).2.2 _ rfl⟩

/-- C9: the invariant "length of `state` equals the action space's flat
dimension" holds after a successful construction and is preserved by `reset`,
`evolve_state` and `get_action`. -/
theorem state_length_invariant :
    (∀ (sp : Space) (mu theta sigma : ℚ) (s : OUStrategy),
        OUStrategy.construct sp mu theta sigma = Except.ok s
          → s.stateLenInv) ∧
    (∀ s : OUStrategy, s.reset.stateLenInv) ∧
    (∀ (s : OUStrategy) (noise : Nat → ℚ),
        s.stateLenInv → ((s.evolve_state noise).1).stateLenInv) ∧
    (∀ (s : OUStrategy) (t : Nat) (observation : List ℚ)
        (policy : List ℚ → List ℚ × List ℚ) (noise : Nat → ℚ),
        s.stateLenInv → ((s.get_action t observation policy noise).1).stateLenInv) := by
  refine ⟨?_, ?_, ?_, ?_⟩
  · intro sp mu theta sigma s hs
    unfold OUStrategy.construct at hs
    by_cases h : sp.kind = SpaceKind.box ∧ sp.shape.length = 1
    · rw [if_pos h] at hs
      cases hs
      simp [OUStrategy.stateLenInv]
    · rw [if_neg h] at hs
      exact absurd (Except.noConfusion hs) id
  · intro s
    simp [OUStrategy.reset, OUStrategy.stateLenInv]
  · intro s noise h
    simpa [OUStrategy.evolve_state, OUStrategy.stateLenInv] using h
  · intro s t observation policy noise h
    simpa [OUStrategy.get_action, OUStrategy.evolve_state,
      OUStrategy.stateLenInv] using h

/-- Witness for C9: the invariant holds for the strategy constructed over a
rank-1 `Box`, and is preserved by `reset`, `evolve_state` and `get_action`
on `ouW`. -/
theorem state_length_invariant_witness :
    (⟨0, 15/100, 3/10, ⟨SpaceKind.box, [1], [-1], [1]⟩,
        List.replicate 1 0⟩ : OUStrategy).stateLenInv ∧
    (ouW.reset).stateLenInv ∧
    ((ouW.evolve_state noiseW).1).stateLenInv ∧
    ((ouW.get_action 0 [0] policyW noiseW).1).stateLenInv :=
  ⟨state_length_invariant.1 ⟨SpaceKind.box, [1], [-1], [1]⟩ 0 (15/100) (3/10)
      _ rfl,
   state_length_invariant.2.1 ouW,
   state_length_invariant.2.2.1 ouW noiseW rfl,
   state_length_invariant.2.2.2 ouW 0 [0] policyW noiseW rfl⟩

/-- C6: For every prior value of `state`, `OUStrategy.reset()` sets `state`
exactly to the vector `mu` repeated across all action dimensions, and changes
no other field. -/
theorem reset_sets_state_to_mu (s : OUStrategy) :
    s.reset.state = List.replicate (flat_dim s.action_space) s.mu ∧
    s.reset.mu = s.mu ∧ s.reset.theta = s.theta ∧ s.reset.sigma = s.sigma ∧
    s.reset.action_space = s.action_space :=
  ⟨rfl, rfl, rfl, rfl, rfl⟩

/-- C8: The timestep parameter `t` of `OUStrategy.get_action` has no influence
on the result: with the same internal state and the same random draws, any two
timestep values give the same updated strategy and the same action. -/
theorem get_action_ignores_timestep (s : OUStrategy) (t1 t2 : Nat)
    (observation : List ℚ) (policy : List ℚ → List ℚ × List ℚ)
    (noise : Nat → ℚ) :
    s.get_action t1 observation policy noise
      = s.get_action t2 observation policy noise :=
  rfl

/-- C1 (code bug): `GaussianMLPPolicy.sample` never returns an
`(action, log_density)` pair at all — the call `self.logpdf(actions)` passes
the drawn action as `obs` and omits the `action` argument of
`logpdf(self, obs, action)`, so Python raises `TypeError` on every call. -/
theorem sample_raises_type_error (p : GaussianMLPPolicy) (qexp : ℚ → ℚ)
    (obs : List ℚ) (n : Nat → ℚ) :
    p.sample qexp obs n = Except.error PyError.typeError :=
  rfl

/-- C2 (code bug): construction with `adaptive_std = True` raises
`NotImplementedError` as specified, but with `adaptive_std = False` it does
not succeed either: the call `nn.Module.__init__()` (missing `self`) raises
`TypeError` on every construction. -/
theorem construct_always_raises (env_spec : EnvSpec) (learn_std : Bool)
    (init_std : ℚ) :
    GaussianMLPPolicy.construct env_spec learn_std init_std true
        = Except.error PyError.notImplementedError ∧
    GaussianMLPPolicy.construct env_spec learn_std init_std false
        = Except.error PyError.typeError :=
  ⟨rfl, rfl⟩

/-- C7 (code bug): the initializer line for `log_std` does set every dimension
to `log(init_std)`, but the resulting `nn.Parameter` has
`requires_grad = True` no matter what `learn_std` is — `learn_std` is never
read, so `log_std` is trainable even when `learn_std = False`. -/
theorem log_std_trainable_regardless_of_learn_std (action_dim : Nat)
    (qlog : ℚ → ℚ) (init_std : ℚ) :
    (GaussianMLPPolicy.initLogStd action_dim false qlog init_std
        = (List.replicate action_dim (qlog init_std), true)) ∧
    (∀ learn_std : Bool,
      (GaussianMLPPolicy.initLogStd action_dim learn_std qlog init_std).2
        = true) :=
  ⟨rfl, fun _ => rfl⟩

/-- C10: calling the module (`forward(obs)`) is `return self.sample(obs)`:
for every policy, observation and fixed random draw, `forward` and `sample`
return the same result. -/
theorem forward_eq_sample (p : GaussianMLPPolicy) (qexp : ℚ → ℚ)
    (obs : List ℚ) (n : Nat → ℚ) :
    p.forward qexp obs n = p.sample qexp obs n :=
  rfl

end Garage
